import Mathlib

/-!
Verification of the ExamPrep-AI multi-agent orchestration backend.

This file gives a shallow embedding of the routing, storage and transcript
code of the repository (`graph/multi_agent_graph.py`, `main.py`,
`tools/analysis_storage_tool.py`, `tools/youtube_transcript_tool.py`) and
proves or refutes the specified properties of that code.

Python values that the embedded code manipulates (JSON values, metadata
dictionaries) are modelled by the inductive `Json`; Python exceptions are
modelled with `Except`; the vector-store backend and the transcript-fetch
network call, which are third-party services, are oracle parameters.
-/

/-- Model of a Python JSON value (the result of `json.loads`) and of the
dictionary values that metadata maps hold.  Numbers keep their source
lexeme: no embedded property inspects a numeric value, only the shape. -/
inductive Json where
  | null : Json
  | bool (b : Bool) : Json
  | num (lexeme : String) : Json
  | str (s : String) : Json
  | arr (elems : List Json) : Json
  | obj (fields : List (String × Json)) : Json

mutual

/-- Boolean equality on `Json`, structural (models Python `==` on the JSON
fragment the code compares). -/
def Json.beq : Json → Json → Bool
  | .null, .null => true
  | .bool a, .bool b => a = b
  | .num a, .num b => a = b
  | .str a, .str b => a = b
  | .arr xs, .arr ys => Json.beqList xs ys
  | .obj xs, .obj ys => Json.beqFields xs ys
  | _, _ => false

def Json.beqList : List Json → List Json → Bool
  | [], [] => true
  | x :: xs, y :: ys => x.beq y && Json.beqList xs ys
  | _, _ => false

def Json.beqFields : List (String × Json) → List (String × Json) → Bool
  | [], [] => true
  | (k₁, v₁) :: xs, (k₂, v₂) :: ys => decide (k₁ = k₂) && v₁.beq v₂ && Json.beqFields xs ys
  | _, _ => false

end

instance : BEq Json := ⟨Json.beq⟩

/-- Python `dict` lookup for a dictionary built by successive assignment
from an association list: the LAST binding of a key wins (this is what
`json.loads` produces for duplicate keys, and what `dict.update` leaves). -/
def py_get (d : List (String × Json)) (k : String) : Option Json :=
  match d with
  | [] => none
  | (k', v) :: rest =>
      match py_get rest k with
      | some w => some w
      | none => if k' = k then some v else none

/-- The code points of the characters `str.isspace()` holds for: exactly
these are stripped by Python's `str.strip()` with no argument. -/
def py_space_codes : List Nat :=
  [9, 10, 11, 12, 13, 28, 29, 30, 31, 32, 133, 160, 5760,
   8192, 8193, 8194, 8195, 8196, 8197, 8198, 8199, 8200, 8201, 8202,
   8232, 8233, 8239, 8287, 12288]

/-- Python whitespace predicate used by `str.strip()`. -/
def py_isspace (c : Char) : Bool := py_space_codes.contains c.toNat

/-- Model of Python `str.strip()` (strip the `isspace` characters from
both ends). -/
def py_strip (s : String) : String :=
  String.mk (((s.data.dropWhile py_isspace).reverse.dropWhile py_isspace).reverse)

/-- The Unicode simple lowercase mapping, compressed into runs
`(start, stop, stride, delta)`: a code point `cp` with
`start ≤ cp ≤ stop` and `(cp - start) % stride = 0` lowercases to
`cp + delta`.  Together these runs cover every code point whose `lower()`
is a single different character; the only multi-character lowercase
mapping (U+0130) and the context-dependent sigma are handled separately
in `py_lower_cps`. -/
def lower_runs : List (Nat × Nat × Nat × Int) :=
  [(65, 90, 1, 32), (192, 214, 1, 32), (216, 222, 1, 32), (256, 302, 2, 1),
   (306, 310, 2, 1), (313, 327, 2, 1), (330, 374, 2, 1), (376, 376, 1, -121),
   (377, 381, 2, 1), (385, 385, 1, 210), (386, 388, 2, 1), (390, 390, 1, 206),
   (391, 391, 1, 1), (393, 394, 1, 205), (395, 395, 1, 1), (398, 398, 1, 79),
   (399, 399, 1, 202), (400, 400, 1, 203), (401, 401, 1, 1), (403, 403, 1, 205),
   (404, 404, 1, 207), (406, 406, 1, 211), (407, 407, 1, 209), (408, 408, 1, 1),
   (412, 412, 1, 211), (413, 413, 1, 213), (415, 415, 1, 214), (416, 420, 2, 1),
   (422, 422, 1, 218), (423, 423, 1, 1), (425, 425, 1, 218), (428, 428, 1, 1),
   (430, 430, 1, 218), (431, 431, 1, 1), (433, 434, 1, 217), (435, 437, 2, 1),
   (439, 439, 1, 219), (440, 440, 1, 1), (444, 444, 1, 1), (452, 452, 1, 2),
   (453, 453, 1, 1), (455, 455, 1, 2), (456, 456, 1, 1), (458, 458, 1, 2),
   (459, 475, 2, 1), (478, 494, 2, 1), (497, 497, 1, 2), (498, 500, 2, 1),
   (502, 502, 1, -97), (503, 503, 1, -56), (504, 542, 2, 1), (544, 544, 1, -130),
   (546, 562, 2, 1), (570, 570, 1, 10795), (571, 571, 1, 1), (573, 573, 1, -163),
   (574, 574, 1, 10792), (577, 577, 1, 1), (579, 579, 1, -195), (580, 580, 1, 69),
   (581, 581, 1, 71), (582, 590, 2, 1), (880, 882, 2, 1), (886, 886, 1, 1),
   (895, 895, 1, 116), (902, 902, 1, 38), (904, 906, 1, 37), (908, 908, 1, 64),
   (910, 911, 1, 63), (913, 929, 1, 32), (931, 939, 1, 32), (975, 975, 1, 8),
   (984, 1006, 2, 1), (1012, 1012, 1, -60), (1015, 1015, 1, 1), (1017, 1017, 1, -7),
   (1018, 1018, 1, 1), (1021, 1023, 1, -130), (1024, 1039, 1, 80), (1040, 1071, 1, 32),
   (1120, 1152, 2, 1), (1162, 1214, 2, 1), (1216, 1216, 1, 15), (1217, 1229, 2, 1),
   (1232, 1326, 2, 1), (1329, 1366, 1, 48), (4256, 4293, 1, 7264), (4295, 4295, 1, 7264),
   (4301, 4301, 1, 7264), (5024, 5103, 1, 38864), (5104, 5109, 1, 8), (7312, 7354, 1, -3008),
   (7357, 7359, 1, -3008), (7680, 7828, 2, 1), (7838, 7838, 1, -7615), (7840, 7934, 2, 1),
   (7944, 7951, 1, -8), (7960, 7965, 1, -8), (7976, 7983, 1, -8), (7992, 7999, 1, -8),
   (8008, 8013, 1, -8), (8025, 8031, 2, -8), (8040, 8047, 1, -8), (8072, 8079, 1, -8),
   (8088, 8095, 1, -8), (8104, 8111, 1, -8), (8120, 8121, 1, -8), (8122, 8123, 1, -74),
   (8124, 8124, 1, -9), (8136, 8139, 1, -86), (8140, 8140, 1, -9), (8152, 8153, 1, -8),
   (8154, 8155, 1, -100), (8168, 8169, 1, -8), (8170, 8171, 1, -112), (8172, 8172, 1, -7),
   (8184, 8185, 1, -128), (8186, 8187, 1, -126), (8188, 8188, 1, -9), (8486, 8486, 1, -7517),
   (8490, 8490, 1, -8383), (8491, 8491, 1, -8262), (8498, 8498, 1, 28), (8544, 8559, 1, 16),
   (8579, 8579, 1, 1), (9398, 9423, 1, 26), (11264, 11311, 1, 48), (11360, 11360, 1, 1),
   (11362, 11362, 1, -10743), (11363, 11363, 1, -3814), (11364, 11364, 1, -10727), (11367, 11371, 2, 1),
   (11373, 11373, 1, -10780), (11374, 11374, 1, -10749), (11375, 11375, 1, -10783), (11376, 11376, 1, -10782),
   (11378, 11378, 1, 1), (11381, 11381, 1, 1), (11390, 11391, 1, -10815), (11392, 11490, 2, 1),
   (11499, 11501, 2, 1), (11506, 11506, 1, 1), (42560, 42604, 2, 1), (42624, 42650, 2, 1),
   (42786, 42798, 2, 1), (42802, 42862, 2, 1), (42873, 42875, 2, 1), (42877, 42877, 1, -35332),
   (42878, 42886, 2, 1), (42891, 42891, 1, 1), (42893, 42893, 1, -42280), (42896, 42898, 2, 1),
   (42902, 42920, 2, 1), (42922, 42922, 1, -42308), (42923, 42923, 1, -42319), (42924, 42924, 1, -42315),
   (42925, 42925, 1, -42305), (42926, 42926, 1, -42308), (42928, 42928, 1, -42258), (42929, 42929, 1, -42282),
   (42930, 42930, 1, -42261), (42931, 42931, 1, 928), (42932, 42946, 2, 1), (42948, 42948, 1, -48),
   (42949, 42949, 1, -42307), (42950, 42950, 1, -35384), (42951, 42953, 2, 1), (42960, 42960, 1, 1),
   (42966, 42968, 2, 1), (42997, 42997, 1, 1), (65313, 65338, 1, 32), (66560, 66599, 1, 40),
   (66736, 66771, 1, 40), (66928, 66938, 1, 39), (66940, 66954, 1, 39), (66956, 66962, 1, 39),
   (66964, 66965, 1, 39), (68736, 68786, 1, 64), (71840, 71871, 1, 32), (93760, 93791, 1, 32),
   (125184, 125217, 1, 34)]

/-- The single-character Unicode lowercase mapping on code points. -/
def char_lower_simple (cp : Nat) : Nat :=
  match lower_runs.findSome? (fun r =>
      if r.1 ≤ cp && cp ≤ r.2.1 && (cp - r.1) % r.2.2.1 = 0 then
        some (Int.toNat (Int.ofNat cp + r.2.2.2))
      else none) with
  | some l => l
  | none => cp

/-- The code-point ranges of Unicode `Cased` characters (as used by
Python's `str.lower()` for the `Final_Sigma` context condition). -/
def cased_ranges : List (Nat × Nat) :=
  [(65, 90), (97, 122), (170, 170), (181, 181), (186, 186), (192, 214), (216, 246),
   (248, 442), (444, 447), (452, 659), (661, 687), (880, 883), (886, 887), (891, 893),
   (895, 895), (902, 902), (904, 906), (908, 908), (910, 929), (931, 1013), (1015, 1153),
   (1162, 1327), (1329, 1366), (1376, 1416), (4256, 4293), (4295, 4295), (4301, 4301), (4304, 4346),
   (4349, 4351), (5024, 5109), (5112, 5117), (7296, 7304), (7312, 7354), (7357, 7359), (7424, 7467),
   (7531, 7543), (7545, 7578), (7680, 7957), (7960, 7965), (7968, 8005), (8008, 8013), (8016, 8023),
   (8025, 8025), (8027, 8027), (8029, 8029), (8031, 8061), (8064, 8116), (8118, 8124), (8126, 8126),
   (8130, 8132), (8134, 8140), (8144, 8147), (8150, 8155), (8160, 8172), (8178, 8180), (8182, 8188),
   (8450, 8450), (8455, 8455), (8458, 8467), (8469, 8469), (8473, 8477), (8484, 8484), (8486, 8486),
   (8488, 8488), (8490, 8493), (8495, 8500), (8505, 8505), (8508, 8511), (8517, 8521), (8526, 8526),
   (8544, 8575), (8579, 8580), (9398, 9449), (11264, 11387), (11390, 11492), (11499, 11502), (11506, 11507),
   (11520, 11557), (11559, 11559), (11565, 11565), (42560, 42605), (42624, 42651), (42786, 42863), (42865, 42887),
   (42891, 42894), (42896, 42954), (42960, 42961), (42963, 42963), (42965, 42969), (42997, 42998), (43002, 43002),
   (43824, 43866), (43872, 43880), (43888, 43967), (64256, 64262), (64275, 64279), (65313, 65338), (65345, 65370),
   (66560, 66639), (66736, 66771), (66776, 66811), (66928, 66938), (66940, 66954), (66956, 66962), (66964, 66965),
   (66967, 66977), (66979, 66993), (66995, 67001), (67003, 67004), (68736, 68786), (68800, 68850), (71840, 71903),
   (93760, 93823), (119808, 119892), (119894, 119964), (119966, 119967), (119970, 119970), (119973, 119974), (119977, 119980),
   (119982, 119993), (119995, 119995), (119997, 120003), (120005, 120069), (120071, 120074), (120077, 120084), (120086, 120092),
   (120094, 120121), (120123, 120126), (120128, 120132), (120134, 120134), (120138, 120144), (120146, 120485), (120488, 120512),
   (120514, 120538), (120540, 120570), (120572, 120596), (120598, 120628), (120630, 120654), (120656, 120686), (120688, 120712),
   (120714, 120744), (120746, 120770), (120772, 120779), (122624, 122633), (122635, 122654), (125184, 125251), (127280, 127305),
   (127312, 127337), (127344, 127369)]

/-- The code-point ranges of Unicode `Case_Ignorable` characters (as used
by Python's `str.lower()` for the `Final_Sigma` context condition). -/
def case_ignorable_ranges : List (Nat × Nat) :=
  [(39, 39), (46, 46), (58, 58), (94, 94), (96, 96), (168, 168), (173, 173),
   (175, 175), (180, 180), (183, 184), (688, 879), (884, 885), (890, 890), (900, 901),
   (903, 903), (1155, 1161), (1369, 1369), (1375, 1375), (1425, 1469), (1471, 1471), (1473, 1474),
   (1476, 1477), (1479, 1479), (1524, 1524), (1536, 1541), (1552, 1562), (1564, 1564), (1600, 1600),
   (1611, 1631), (1648, 1648), (1750, 1757), (1759, 1768), (1770, 1773), (1807, 1807), (1809, 1809),
   (1840, 1866), (1958, 1968), (2027, 2037), (2042, 2042), (2045, 2045), (2070, 2093), (2137, 2139),
   (2184, 2184), (2192, 2193), (2200, 2207), (2249, 2306), (2362, 2362), (2364, 2364), (2369, 2376),
   (2381, 2381), (2385, 2391), (2402, 2403), (2417, 2417), (2433, 2433), (2492, 2492), (2497, 2500),
   (2509, 2509), (2530, 2531), (2558, 2558), (2561, 2562), (2620, 2620), (2625, 2626), (2631, 2632),
   (2635, 2637), (2641, 2641), (2672, 2673), (2677, 2677), (2689, 2690), (2748, 2748), (2753, 2757),
   (2759, 2760), (2765, 2765), (2786, 2787), (2810, 2815), (2817, 2817), (2876, 2876), (2879, 2879),
   (2881, 2884), (2893, 2893), (2901, 2902), (2914, 2915), (2946, 2946), (3008, 3008), (3021, 3021),
   (3072, 3072), (3076, 3076), (3132, 3132), (3134, 3136), (3142, 3144), (3146, 3149), (3157, 3158),
   (3170, 3171), (3201, 3201), (3260, 3260), (3263, 3263), (3270, 3270), (3276, 3277), (3298, 3299),
   (3328, 3329), (3387, 3388), (3393, 3396), (3405, 3405), (3426, 3427), (3457, 3457), (3530, 3530),
   (3538, 3540), (3542, 3542), (3633, 3633), (3636, 3642), (3654, 3662), (3761, 3761), (3764, 3772),
   (3782, 3782), (3784, 3789), (3864, 3865), (3893, 3893), (3895, 3895), (3897, 3897), (3953, 3966),
   (3968, 3972), (3974, 3975), (3981, 3991), (3993, 4028), (4038, 4038), (4141, 4144), (4146, 4151),
   (4153, 4154), (4157, 4158), (4184, 4185), (4190, 4192), (4209, 4212), (4226, 4226), (4229, 4230),
   (4237, 4237), (4253, 4253), (4348, 4348), (4957, 4959), (5906, 5908), (5938, 5939), (5970, 5971),
   (6002, 6003), (6068, 6069), (6071, 6077), (6086, 6086), (6089, 6099), (6103, 6103), (6109, 6109),
   (6155, 6159), (6211, 6211), (6277, 6278), (6313, 6313), (6432, 6434), (6439, 6440), (6450, 6450),
   (6457, 6459), (6679, 6680), (6683, 6683), (6742, 6742), (6744, 6750), (6752, 6752), (6754, 6754),
   (6757, 6764), (6771, 6780), (6783, 6783), (6823, 6823), (6832, 6862), (6912, 6915), (6964, 6964),
   (6966, 6970), (6972, 6972), (6978, 6978), (7019, 7027), (7040, 7041), (7074, 7077), (7080, 7081),
   (7083, 7085), (7142, 7142), (7144, 7145), (7149, 7149), (7151, 7153), (7212, 7219), (7222, 7223),
   (7288, 7293), (7376, 7378), (7380, 7392), (7394, 7400), (7405, 7405), (7412, 7412), (7416, 7417),
   (7468, 7530), (7544, 7544), (7579, 7679), (8125, 8125), (8127, 8129), (8141, 8143), (8157, 8159),
   (8173, 8175), (8189, 8190), (8203, 8207), (8216, 8217), (8228, 8228), (8231, 8231), (8234, 8238),
   (8288, 8292), (8294, 8303), (8305, 8305), (8319, 8319), (8336, 8348), (8400, 8432), (11388, 11389),
   (11503, 11505), (11631, 11631), (11647, 11647), (11744, 11775), (11823, 11823), (12293, 12293), (12330, 12333),
   (12337, 12341), (12347, 12347), (12441, 12446), (12540, 12542), (40981, 40981), (42232, 42237), (42508, 42508),
   (42607, 42610), (42612, 42621), (42623, 42623), (42652, 42655), (42736, 42737), (42752, 42785), (42864, 42864),
   (42888, 42890), (42994, 42996), (43000, 43001), (43010, 43010), (43014, 43014), (43019, 43019), (43045, 43046),
   (43052, 43052), (43204, 43205), (43232, 43249), (43263, 43263), (43302, 43309), (43335, 43345), (43392, 43394),
   (43443, 43443), (43446, 43449), (43452, 43453), (43471, 43471), (43493, 43494), (43561, 43566), (43569, 43570),
   (43573, 43574), (43587, 43587), (43596, 43596), (43632, 43632), (43644, 43644), (43696, 43696), (43698, 43700),
   (43703, 43704), (43710, 43711), (43713, 43713), (43741, 43741), (43756, 43757), (43763, 43764), (43766, 43766),
   (43867, 43871), (43881, 43883), (44005, 44005), (44008, 44008), (44013, 44013), (64286, 64286), (64434, 64450),
   (65024, 65039), (65043, 65043), (65056, 65071), (65106, 65106), (65109, 65109), (65279, 65279), (65287, 65287),
   (65294, 65294), (65306, 65306), (65342, 65342), (65344, 65344), (65392, 65392), (65438, 65439), (65507, 65507),
   (65529, 65531), (66045, 66045), (66272, 66272), (66422, 66426), (67456, 67461), (67463, 67504), (67506, 67514),
   (68097, 68099), (68101, 68102), (68108, 68111), (68152, 68154), (68159, 68159), (68325, 68326), (68900, 68903),
   (69291, 69292), (69446, 69456), (69506, 69509), (69633, 69633), (69688, 69702), (69744, 69744), (69747, 69748),
   (69759, 69761), (69811, 69814), (69817, 69818), (69821, 69821), (69826, 69826), (69837, 69837), (69888, 69890),
   (69927, 69931), (69933, 69940), (70003, 70003), (70016, 70017), (70070, 70078), (70089, 70092), (70095, 70095),
   (70191, 70193), (70196, 70196), (70198, 70199), (70206, 70206), (70367, 70367), (70371, 70378), (70400, 70401),
   (70459, 70460), (70464, 70464), (70502, 70508), (70512, 70516), (70712, 70719), (70722, 70724), (70726, 70726),
   (70750, 70750), (70835, 70840), (70842, 70842), (70847, 70848), (70850, 70851), (71090, 71093), (71100, 71101),
   (71103, 71104), (71132, 71133), (71219, 71226), (71229, 71229), (71231, 71232), (71339, 71339), (71341, 71341),
   (71344, 71349), (71351, 71351), (71453, 71455), (71458, 71461), (71463, 71467), (71727, 71735), (71737, 71738),
   (71995, 71996), (71998, 71998), (72003, 72003), (72148, 72151), (72154, 72155), (72160, 72160), (72193, 72202),
   (72243, 72248), (72251, 72254), (72263, 72263), (72273, 72278), (72281, 72283), (72330, 72342), (72344, 72345),
   (72752, 72758), (72760, 72765), (72767, 72767), (72850, 72871), (72874, 72880), (72882, 72883), (72885, 72886),
   (73009, 73014), (73018, 73018), (73020, 73021), (73023, 73029), (73031, 73031), (73104, 73105), (73109, 73109),
   (73111, 73111), (73459, 73460), (78896, 78904), (92912, 92916), (92976, 92982), (92992, 92995), (94031, 94031),
   (94095, 94111), (94176, 94177), (94179, 94180), (110576, 110579), (110581, 110587), (110589, 110590), (113821, 113822),
   (113824, 113827), (118528, 118573), (118576, 118598), (119143, 119145), (119155, 119170), (119173, 119179), (119210, 119213),
   (119362, 119364), (121344, 121398), (121403, 121452), (121461, 121461), (121476, 121476), (121499, 121503), (121505, 121519),
   (122880, 122886), (122888, 122904), (122907, 122913), (122915, 122916), (122918, 122922), (123184, 123197), (123566, 123566),
   (123628, 123631), (125136, 125142), (125252, 125259), (127995, 127999), (917505, 917505), (917536, 917631), (917760, 917999)]

/-- Is this code point `Cased`? -/
def is_cased (cp : Nat) : Bool :=
  cased_ranges.any (fun r => r.1 ≤ cp && cp ≤ r.2)

/-- Is this code point `Case_Ignorable`? -/
def is_case_ignorable (cp : Nat) : Bool :=
  case_ignorable_ranges.any (fun r => r.1 ≤ cp && cp ≤ r.2)

/-- The `Final_Sigma` condition of Unicode case mapping: the capital sigma
is preceded by a cased character (skipping case-ignorable ones) and not
followed by one.  `before` holds the preceding code points of the
original string in reverse order, `after` the following ones in order. -/
def final_sigma (before after : List Nat) : Bool :=
  (match before.dropWhile is_case_ignorable with
   | p :: _ => is_cased p
   | [] => false) &&
  !(match after.dropWhile is_case_ignorable with
    | n :: _ => is_cased n
    | [] => false)

/-- Python `str.lower()` over code points: capital sigma lowers to final
sigma exactly under `Final_Sigma`, U+0130 expands to `i` plus combining
dot above, every other code point follows the simple mapping.  `before`
accumulates the already-visited code points in reverse order. -/
def py_lower_cps : List Nat → List Nat → List Nat
  | _, [] => []
  | before, cp :: rest =>
      (if cp = 931 then
        [if final_sigma before rest then 962 else 963]
      else if cp = 304 then [105, 775]
      else [char_lower_simple cp]) ++ py_lower_cps (cp :: before) rest

/-- Model of Python `str.lower()`. -/
def py_lower (s : String) : String :=
  String.mk ((py_lower_cps [] (s.data.map Char.toNat)).map Char.ofNat)

/-! ### A model of strict `json.loads`

Recursive-descent acceptor for the grammar that `json.loads` accepts with
its default arguments: strict mode (no trailing data, no trailing commas,
raw control characters rejected inside strings), the standard escapes
including `\uXXXX` with surrogate-pair combination, and the non-standard
constants `NaN`, `Infinity` and `-Infinity` that the default
`parse_constant` admits.  Fuel bounds the nesting depth; every nesting
level consumes at least one input character, so `length + 1` fuel is
always enough. -/

/-- The `{` character, and `}` below (named to keep brace characters out of
literals). -/
def lbrace : Char := Char.ofNat 123

def rbrace : Char := Char.ofNat 125

/-- Skip JSON whitespace (the four characters `json.loads` skips). -/
def skip_ws : List Char → List Char
  | c :: rest =>
      if c = ' ' || c = '\t' || c = '\n' || c = '\r' then skip_ws rest else c :: rest
  | [] => []

/-- Decode one single-character string escape (after the backslash); the
`\\uXXXX` escape is handled separately in `parse_jstring`. -/
def unescape (e : Char) : Option Char :=
  if e = '"' then some '"'
  else if e = '\\' then some '\\'
  else if e = '/' then some '/'
  else if e = 'n' then some '\n'
  else if e = 't' then some '\t'
  else if e = 'r' then some '\r'
  else if e = 'b' then some (Char.ofNat 8)
  else if e = 'f' then some (Char.ofNat 12)
  else none

/-- The value of one hexadecimal digit (digits, then the lower-case and
the upper-case letter ranges, by code point). -/
def hex_digit (c : Char) : Option Nat :=
  let n := c.toNat
  if 48 ≤ n && n ≤ 57 then some (n - 48)
  else if 97 ≤ n && n ≤ 102 then some (n - 87)
  else if 65 ≤ n && n ≤ 70 then some (n - 55)
  else none

/-- The value of a four-hex-digit group (the `XXXX` of `\\uXXXX`). -/
def hex4v (a b c d : Char) : Option Nat :=
  match hex_digit a, hex_digit b, hex_digit c, hex_digit d with
  | some x, some y, some z, some w => some (((x * 16 + y) * 16 + z) * 16 + w)
  | _, _, _, _ => none

/-- A Python `str` may hold lone surrogates (`json.loads` produces them
for unpaired `\\uD800`-`\\uDFFF` escapes); a Lean `String` holds Unicode
scalar values only, so the model represents a lone surrogate by U+FFFD.
This affects only the characters of such decoded strings, never whether
decoding succeeds. -/
def lone_surrogate_repr : Char := Char.ofNat 0xFFFD

/-- Prepend a decoded character to a string-parse result. -/
def cons_char (d : Char) : Option (List Char × List Char) →
    Option (List Char × List Char)
  | some (s, r) => some (d :: s, r)
  | none => none

/-- Parse the body of a JSON string after the opening quote, as the strict
`json.loads` scanner does: a raw control character (below U+0020) is
rejected; `\\uXXXX` escapes are decoded, with a high-surrogate escape
immediately followed by a low-surrogate escape combined into one
character; returns the decoded characters and the input after the closing
quote.  The fuel keeps the recursion structural; every step consumes at
least one input character, so `length + 1` fuel is always enough. -/
def parse_jstring : Nat → List Char → Option (List Char × List Char)
  | 0, _ => none
  | _ + 1, [] => none
  | fuel + 1, c :: rest =>
      if c = '"' then some ([], rest)
      else if c = '\\' then
        match rest with
        | 'u' :: h₁ :: h₂ :: h₃ :: h₄ :: rest₃ =>
            match hex4v h₁ h₂ h₃ h₄ with
            | none => none
            | some h =>
                if 55296 ≤ h && h ≤ 56319 then
                  match rest₃ with
                  | '\\' :: 'u' :: g₁ :: g₂ :: g₃ :: g₄ :: rest₅ =>
                      match hex4v g₁ g₂ g₃ g₄ with
                      | some l =>
                          if 56320 ≤ l && l ≤ 57343 then
                            cons_char
                              (Char.ofNat
                                (65536 + 1024 * (h - 55296) + (l - 56320)))
                              (parse_jstring fuel rest₅)
                          else
                            cons_char lone_surrogate_repr
                              (parse_jstring fuel
                                ('\\' :: 'u' :: g₁ :: g₂ :: g₃ :: g₄ :: rest₅))
                      | none =>
                          cons_char lone_surrogate_repr
                            (parse_jstring fuel
                              ('\\' :: 'u' :: g₁ :: g₂ :: g₃ :: g₄ :: rest₅))
                  | _ => cons_char lone_surrogate_repr (parse_jstring fuel rest₃)
                else if 56320 ≤ h && h ≤ 57343 then
                  cons_char lone_surrogate_repr (parse_jstring fuel rest₃)
                else cons_char (Char.ofNat h) (parse_jstring fuel rest₃)
        | e :: rest₂ =>
            match unescape e with
            | none => none
            | some d => cons_char d (parse_jstring fuel rest₂)
        | [] => none
      else if c.toNat < 0x20 then none
      else cons_char c (parse_jstring fuel rest)

/-- Longest prefix of decimal digits. -/
def take_digits : List Char → List Char × List Char
  | c :: rest =>
      if c.isDigit then
        let (ds, r) := take_digits rest
        (c :: ds, r)
      else ([], c :: rest)
  | [] => ([], [])

/-- Optional fraction part of a JSON number. -/
def parse_frac (cs : List Char) : Option (List Char × List Char) :=
  match cs with
  | '.' :: rest =>
      let (fs, r) := take_digits rest
      if fs = [] then none else some ('.' :: fs, r)
  | _ => some ([], cs)

/-- Optional exponent part of a JSON number. -/
def parse_exp (cs : List Char) : Option (List Char × List Char) :=
  match cs with
  | c :: rest =>
      if c = 'e' || c = 'E' then
        let (sgn, rest₂) :=
          match rest with
          | s :: r₂ => if s = '+' || s = '-' then ([s], r₂) else (([] : List Char), rest)
          | [] => ([], rest)
        let (ds, r) := take_digits rest₂
        if ds = [] then none else some (c :: (sgn ++ ds), r)
      else some ([], c :: rest)
  | [] => some ([], [])

/-- Parse a JSON number (strict grammar: optional minus, no leading zeros,
optional fraction and exponent); returns its lexeme. -/
def parse_number (cs : List Char) : Option (String × List Char) :=
  let (sign, cs₁) :=
    match cs with
    | c :: rest => if c = '-' then (([c] : List Char), rest) else ([], cs)
    | [] => ([], cs)
  let (ds, cs₂) := take_digits cs₁
  if ds = [] then none
  else if 1 < ds.length && ds.head? = some '0' then none
  else
    match parse_frac cs₂ with
    | none => none
    | some (fr, cs₃) =>
        match parse_exp cs₃ with
        | none => none
        | some (ex, cs₄) => some (String.mk (sign ++ ds ++ fr ++ ex), cs₄)

mutual

/-- Parse one JSON value (strict grammar of `json.loads`).  `fuel` bounds
the nesting depth; each level consumes at least one character. -/
def parse_value : Nat → List Char → Option (Json × List Char)
  | 0, _ => none
  | _ + 1, [] => none
  | fuel + 1, c :: rest =>
      if c = '"' then
        match parse_jstring (rest.length + 1) rest with
        | some (s, r) => some (.str (String.mk s), r)
        | none => none
      else if c = lbrace then
        match skip_ws rest with
        | c₂ :: r₂ =>
            if c₂ = rbrace then some (.obj [], r₂)
            else parse_members fuel (c₂ :: r₂) []
        | [] => none
      else if c = '[' then
        match skip_ws rest with
        | c₂ :: r₂ =>
            if c₂ = ']' then some (.arr [], r₂)
            else parse_elements fuel (c₂ :: r₂) []
        | [] => none
      else
        match c :: rest with
        | 'n' :: 'u' :: 'l' :: 'l' :: r => some (Json.null, r)
        | 't' :: 'r' :: 'u' :: 'e' :: r => some (Json.bool true, r)
        | 'f' :: 'a' :: 'l' :: 's' :: 'e' :: r => some (Json.bool false, r)
        | 'N' :: 'a' :: 'N' :: r => some (Json.num "NaN", r)
        | 'I' :: 'n' :: 'f' :: 'i' :: 'n' :: 'i' :: 't' :: 'y' :: r =>
            some (.num "Infinity", r)
        | '-' :: 'I' :: 'n' :: 'f' :: 'i' :: 'n' :: 'i' :: 't' :: 'y' :: r =>
            some (.num "-Infinity", r)
        | cs =>
            match parse_number cs with
            | some (lex, r) => some (.num lex, r)
            | none => none

/-- Parse the members of a JSON object, accumulating parsed fields;
the input starts at the first (non-whitespace) character of a key. -/
def parse_members : Nat → List Char → List (String × Json) →
    Option (Json × List Char)
  | 0, _, _ => none
  | fuel + 1, cs, acc =>
      match cs with
      | '"' :: rest =>
          match parse_jstring (rest.length + 1) rest with
          | none => none
          | some (key, r₁) =>
              match skip_ws r₁ with
              | ':' :: r₂ =>
                  match parse_value fuel (skip_ws r₂) with
                  | none => none
                  | some (v, r₃) =>
                      let acc := acc ++ [(String.mk key, v)]
                      match skip_ws r₃ with
                      | ',' :: r₄ =>
                          match skip_ws r₄ with
                          | [] => none
                          | r₅ => parse_members fuel r₅ acc
                      | c :: r₄ =>
                          if c = rbrace then some (.obj acc, r₄) else none
                      | [] => none
              | _ => none
      | _ => none

/-- Parse the elements of a JSON array, accumulating parsed values;
the input starts at the first (non-whitespace) character of a value. -/
def parse_elements : Nat → List Char → List Json → Option (Json × List Char)
  | 0, _, _ => none
  | fuel + 1, cs, acc =>
      match parse_value fuel cs with
      | none => none
      | some (v, r₁) =>
          let acc := acc ++ [v]
          match skip_ws r₁ with
          | ',' :: r₂ =>
              match skip_ws r₂ with
              | [] => none
              | r₃ => parse_elements fuel r₃ acc
          | ']' :: r₂ => some (.arr acc, r₂)
          | _ => none

end

/-- Model of `json.loads` with its default arguments: parse one value,
allow surrounding whitespace, require the whole input to be consumed;
`none` models a raised `json.JSONDecodeError`. -/
def json_loads (s : String) : Option Json :=
  match parse_value (s.length + 1) (skip_ws s.data) with
  | some (j, rest) => if skip_ws rest = [] then some j else none
  | none => none

/-! ### The supervisor routing function (`MultiAgentGraph.decide_next`) -/

/-- A message in the shared `MessagesState`; only the class (human / AI /
tool) and the content are relevant to routing. -/
inductive Msg where
  | human (content : Option String) : Msg
  | ai (content : Option String) : Msg
  | tool (content : Option String) : Msg

/-- Python exceptions that `decide_next` can raise (it catches only
`json.JSONDecodeError`). -/
inductive PyErr where
  | attributeError : PyErr
  | indexError : PyErr
deriving DecidableEq

/-- Does the `isinstance(last_msg, AIMessage)` test succeed? -/
def is_ai : Msg → Bool
  | .ai _ => true
  | _ => false

/-- Embedding of `MultiAgentGraph.decide_next`
(`graph/multi_agent_graph.py`, lines 57-80).  Returns the routing string
together with the `reason` value the function reads (the value it prints);
`Except.error` models an uncaught exception:
`state["messages"][-1]` on an empty list raises `IndexError`;
`decision.get` on a non-dict and `.strip()` on a non-string raise
`AttributeError`, and only `json.JSONDecodeError` is caught. -/
def decide_next (messages : List Msg) : Except PyErr (String × Option Json) :=
  match messages.getLast? with
  | none => .error .indexError
  | some (.ai c) =>
      let content := py_strip (c.getD "")
      match json_loads content with
      | none => .ok ("end", none)
      | some (Json.obj fields) =>
          match (py_get fields "next_agent").getD (Json.str "") with
          | Json.str na₀ =>
              let na := py_strip na₀
              let reason := (py_get fields "reason").getD (Json.str "No reason provided.")
              .ok (if na = "" then "end" else py_lower na, some reason)
          | _ => .error .attributeError
      | some _ => .error .attributeError
  | some _ => .ok ("end", none)

/-! ### The orchestration graph (`MultiAgentGraph.build_graph`, `main.py`) -/

/-- Target of a conditional edge in the LangGraph path map. -/
inductive PathTarget where
  | node (n : String) : PathTarget
  | endT : PathTarget
deriving DecidableEq

/-- The literal path map passed to `add_conditional_edges` in
`build_graph` (`graph/multi_agent_graph.py`, lines 45-55). -/
def path_map : List (String × PathTarget) :=
  [("document_ingestion_agent", .node "document_ingestion_agent"),
   ("summarizer_agent", .node "summarizer_agent"),
   ("pyq_syllabus_analysis_agent", .node "pyq_syllabus_analysis_agent"),
   ("youtube_video_summarizer_agent", .node "youtube_video_summarizer_agent"),
   ("end", .endT)]

/-- Look a routing string up in the conditional path map. -/
def lookup_path (r : String) : Option PathTarget :=
  (path_map.find? (fun p => p.1 = r)).map (fun p => p.2)

/-- The plain edges added by `build_graph` (lines 36-39): every
non-supervisor agent gets a single edge back to the supervisor. -/
def worker_edges (keys : List String) : List (String × String) :=
  (keys.filter (fun n => n ≠ "supervisor_agent")).map
    (fun n => (n, "supervisor_agent"))

/-- The agent registry keys built in `main.py`, lines 47-54. -/
def main_registry_keys : List String :=
  ["supervisor_agent", "document_ingestion_agent", "summarizer_agent",
   "pyq_syllabus_analysis_agent", "youtube_video_summarizer_agent",
   "store_analysis_agent"]

/-- Where control sits in one run of the compiled graph. -/
inductive GPhase where
  | entry : GPhase
  | at_node (n : String) : GPhase
  | done : GPhase
  | failed : GPhase
deriving DecidableEq

/-- One control transition of the compiled graph built by `build_graph`:
from the entry point along `START → supervisor_agent`; from the supervisor
along the conditional edge chosen by the `decide_next` result `dec`
(a result outside the path map, or an uncaught exception in `decide_next`,
makes the runtime raise: `failed`); from any other node along its plain
edge (every worker's only edge leads to the supervisor). -/
def next_phase (keys : List String) (dec : Except PyErr (String × Option Json)) :
    GPhase → GPhase
  | .entry => .at_node "supervisor_agent"
  | .at_node n =>
      if n = "supervisor_agent" then
        match dec with
        | .error _ => .failed
        | .ok (r, _) =>
            match lookup_path r with
            | some (.node m) => .at_node m
            | some .endT => .done
            | none => .failed
      else
        match (worker_edges keys).find? (fun e => e.1 = n) with
        | some e => .at_node e.2
        | none => .done
  | .done => .done
  | .failed => .failed

/-! ### The orchestration run loop with its step counter

The loop that drives the compiled graph and bounds the number of steps is
part of the graph runtime, not of this repository's sources. -/

/-- Phase of a whole orchestration run. -/
inductive RPhase where
  | running : RPhase
  | terminated : RPhase
  | errored : RPhase
deriving DecidableEq

/-- State of an orchestration run: the step counter, the number of worker
dispatches made so far, and the phase. -/
structure RunState where
  steps : Nat
  dispatches : Nat
  phase : RPhase
deriving DecidableEq

/-- The initial run state. -/
def run_init : RunState := ⟨0, 0, .running⟩

/-- Modelled from the spec: the run loop's step-counter enforcement
("Increment step counter; if it exceeds a configured maximum, force
termination"), which lives in the graph runtime and is absent from this
repository's sources.  Each iteration increments the counter, forces
termination once it exceeds `max_steps`, and otherwise routes the
supervisor output `sup_out s.steps` with the source's `decide_next` through
the source's conditional path map: a worker dispatch returns control to the
supervisor (the worker's only edge), `end` terminates, and anything else
errors the run. -/
def run_step (max_steps : Nat) (sup_out : Nat → String) (s : RunState) :
    RunState :=
  match s.phase with
  | .running =>
      let steps := s.steps + 1
      if max_steps < steps then ⟨steps, s.dispatches, .terminated⟩
      else
        match decide_next [Msg.ai (some (sup_out s.steps))] with
        | .error _ => ⟨steps, s.dispatches, .errored⟩
        | .ok (r, _) =>
            match lookup_path r with
            | some (.node _) => ⟨steps, s.dispatches + 1, .running⟩
            | some .endT => ⟨steps, s.dispatches, .terminated⟩
            | none => ⟨steps, s.dispatches, .errored⟩
  | _ => s

/-- The supervisor output of C1's example scenario: always re-select the
summarizer agent. -/
def sup_always_summarizer : Nat → String :=
  fun _ => "\x7b\"next_agent\":\"summarizer_agent\",\"reason\":\"x\"\x7d"

/-! ### The analysis storage tool (`tools/analysis_storage_tool.py`) -/

/-- Error raised by the vector-store backend: `typeError` models a Python
`TypeError` (the only class `_retrieve_impl` catches), `otherError` any
other exception class, with its message. -/
inductive BErr where
  | typeError : BErr
  | otherError (msg : String) : BErr
deriving DecidableEq

/-- A LangChain `Document` as stored in / returned by Chroma. -/
structure LCDoc where
  page_content : String
  metadata : List (String × Json)

/-- One entry of the payload `_retrieve_impl` builds. -/
structure RankedResult where
  rank : Nat
  content : String
  metadata : List (String × Json)

/-- The mapping `_retrieve_impl` returns. -/
structure RetrievePayload where
  query : String
  results : List RankedResult

/-- `for i, r in enumerate(results, start=1)`: rank the documents
consecutively from `i`. -/
def rank_results (i : Nat) : List LCDoc → List RankedResult
  | [] => []
  | d :: rest => ⟨i, d.page_content, d.metadata⟩ :: rank_results (i + 1) rest

/-- The `match(meta, filt)` helper of `_retrieve_impl`'s fallback path:
every filter entry must equal the corresponding metadata entry
(`meta.get(kf)` is `None` — `Json.null` — when the key is absent). -/
def meta_match (meta : List (String × Json)) (filt : List (String × Json)) :
    Bool :=
  filt.all (fun p => ((py_get meta p.1).getD Json.null).beq p.2)

/-- A similarity-search backend: the behaviour of
`self.vs.similarity_search(query, k=k, filter=filter)`, an external
service, as an oracle from the call's arguments (the `filter` argument is
`none` when the parameter is not passed). -/
def Backend : Type :=
  String → Nat → Option (List (String × Json)) → Except BErr (List LCDoc)

/-- Embedding of `AnalysisStorageTool._retrieve_impl`
(`tools/analysis_storage_tool.py`, lines 102-130): call the backend with
the filter; on `TypeError` only, retry without the filter and apply the
manual metadata filter (skipped when `filter` is absent or empty, Python
truthiness); rank the results from 1 and wrap them with the query.
Any other backend exception, from either call, propagates. -/
def _retrieve_impl (backend : Backend) (query : String) (k : Nat)
    (filter : Option (List (String × Json))) :
    Except BErr RetrievePayload :=
  let ranked : List LCDoc → Except BErr RetrievePayload :=
    fun results => .ok ⟨query, rank_results 1 results⟩
  match backend query k filter with
  | .ok results => ranked results
  | .error .typeError =>
      match backend query k none with
      | .error e => .error e
      | .ok results =>
          match filter with
          | some [] | none => ranked results
          | some f => ranked (results.filter (fun r => meta_match r.metadata f))
  | .error e => .error e

/-- Python `d[k] = v` on an association-list dictionary: replace the
binding if the key is present, append it otherwise. -/
def py_set (d : List (String × Json)) (k : String) (v : Json) :
    List (String × Json) :=
  if d.any (fun p => p.1 = k) then
    d.map (fun p => if p.1 = k then (k, v) else p)
  else d ++ [(k, v)]

/-- Python `d.update(m)`: assign every binding of `m`, in order, into `d`. -/
def py_dict_update (d : List (String × Json)) :
    List (String × Json) → List (String × Json)
  | [] => d
  | (k, v) :: rest => py_dict_update (py_set d k v) rest

/-- The value the `doc_id` argument contributes to the metadata dict. -/
def opt_str_json : Option String → Json
  | none => Json.null
  | some s => Json.str s

/-- How Python's f-string prints an `Optional[str]`. -/
def py_show_opt : Option String → String
  | none => "None"
  | some s => s

/-- Embedding of `AnalysisStorageTool._store_impl`
(`tools/analysis_storage_tool.py`, lines 70-100): build the automatic
metadata (agent name, type, doc id, timestamp), then `meta.update(metadata)`
when the caller's metadata dict is truthy, and store one document whose
page content is `text_repr` (the `json.dumps`/`str` normalisation of the
`result` argument, not relevant to any claim and taken as given, like the
`datetime.utcnow` timestamp).  Returns the stored document and the
tool's return string. -/
def _store_impl (agent_name result_type text_repr : String)
    (doc_id : Option String) (timestamp : String)
    (metadata : Option (List (String × Json))) : LCDoc × String :=
  let meta : List (String × Json) :=
    [("agent_name", Json.str agent_name),
     ("type", Json.str result_type),
     ("doc_id", opt_str_json doc_id),
     ("timestamp", Json.str timestamp)]
  let meta :=
    match metadata with
    | some [] | none => meta
    | some m => py_dict_update meta m
  (⟨text_repr, meta⟩,
   "Stored analysis result: type='" ++ result_type ++ "', agent='" ++
     agent_name ++ "', doc_id='" ++ py_show_opt doc_id ++ "'")

/-! ### The YouTube transcript tool (`tools/youtube_transcript_tool.py`) -/

/-- The characters after the first occurrence of `sep`, if `sep` occurs. -/
def after_char (sep : Char) (cs : List Char) : Option (List Char) :=
  match cs.dropWhile (fun c => c ≠ sep) with
  | [] => none
  | _ :: rest => some rest

/-- Split a character list at every occurrence of `sep`. -/
def split_char (sep : Char) : List Char → List (List Char)
  | [] => [[]]
  | c :: rest =>
      let r := split_char sep rest
      if c = sep then [] :: r
      else
        match r with
        | h :: t => (c :: h) :: t
        | [] => [[c]]

/-- The query component of a URL, as `urlparse` extracts it: the part
after the first `?` of the part before the first `#` (empty when there is
no `?`). -/
def url_query (url : String) : List Char :=
  (after_char '?' (url.data.takeWhile (fun c => c ≠ '#'))).getD []

/-- `parse_qs(query).get("v", [None])[0]`: the value of the first
non-blank `v` parameter, if any (each `k=v` pair is split at its first
`=`; pairs without `=` or with a blank value are dropped, as `parse_qs`
drops them with its default `keep_blank_values=False`). -/
def parse_qs_v (query : List Char) : Option String :=
  ((split_char '&' query).filterMap (fun pair =>
      match after_char '=' pair with
      | none => none
      | some val =>
          if pair.takeWhile (fun c => c ≠ '=') = ['v'] && val ≠ [] then
            some (String.mk val)
          else none)).head?

/-- `parse_qs(urlparse(video_url).query).get("v", [None])[0]`. -/
def extract_video_id (video_url : String) : Option String :=
  parse_qs_v (url_query video_url)

/-- The message of the ValueError raised for a URL without a video id. -/
def bad_url_msg : String := "Invalid YouTube URL. Could not extract video ID."

/-- The message of the ValueError raised when the API key is unset. -/
def no_key_msg : String :=
  "YouTube API key not set. Please add YOUTUBE_API_KEY to your .env file."

/-- Embedding of `YouTubeTranscriptTool.get_youtube_transcript`
(`tools/youtube_transcript_tool.py`, lines 15-37).  `api_key` is
`os.getenv("YOUTUBE_API_KEY")`; `fetch` is the external
`YouTubeTranscriptApi.get_transcript` call, as an oracle returning the
entries' text fields or raising with a message.  The whole body runs under
`try/except Exception`, which turns any raised error `e` into the returned
string `"Error fetching transcript: " ++ str(e)`. -/
def get_youtube_transcript (api_key : Option String)
    (fetch : String → Except String (List String)) (video_url : String) :
    String :=
  let body : Except String String :=
    match extract_video_id video_url with
    | none => .error bad_url_msg
    | some vid =>
        match api_key with
        | none => .error no_key_msg
        | some key =>
            if key = "" then .error no_key_msg
            else
              match fetch vid with
              | .error e => .error e
              | .ok entries => .ok (String.intercalate " " entries)
  match body with
  | .ok t => t
  | .error e => "Error fetching transcript: " ++ e

/-! ### Helper lemmas -/

/-- Every worker edge points at the supervisor. -/
theorem worker_edges_snd (keys : List String) (e : String × String)
    (he : e ∈ worker_edges keys) : e.2 = "supervisor_agent" := by
  simp only [worker_edges, List.mem_map] at he
  obtain ⟨n, _, rfl⟩ := he
  rfl

/-- Unfolding equation of `py_get` on a cons cell. -/
theorem py_get_cons (k' : String) (v : Json) (rest : List (String × Json))
    (k : String) :
    py_get ((k', v) :: rest) k =
      match py_get rest k with
      | some w => some w
      | none => if k' = k then some v else none := rfl

/-- `py_get` over a concatenation: the right-hand bindings win. -/
theorem py_get_append (d₁ d₂ : List (String × Json)) (k : String) :
    py_get (d₁ ++ d₂) k =
      match py_get d₂ k with
      | some w => some w
      | none => py_get d₁ k := by
  induction d₁ with
  | nil =>
      simp only [List.nil_append]
      cases py_get d₂ k <;> rfl
  | cons p d₁ ih =>
      obtain ⟨k', v⟩ := p
      simp only [List.cons_append, py_get_cons, ih]
      cases py_get d₂ k <;> cases py_get d₁ k <;> rfl

/-- `py_get` after replacing every binding of `k`. -/
theorem py_get_replace (d : List (String × Json)) (k : String) (v : Json) :
    py_get (d.map (fun p => if p.1 = k then (k, v) else p)) k =
      if d.any (fun p => p.1 = k) then some v else none := by
  induction d with
  | nil => rfl
  | cons p d ih =>
      obtain ⟨k', v'⟩ := p
      by_cases hk : k' = k
      · subst hk
        cases hd : d.any (fun p => p.1 = k') <;> simp [py_get_cons, ih, hd]
      · cases hd : d.any (fun p => p.1 = k) <;> simp [py_get_cons, ih, hd, hk]

/-- `py_get` after replacing bindings of another key is unchanged. -/
theorem py_get_replace_other (d : List (String × Json)) (k k' : String)
    (v : Json) (hne : k' ≠ k) :
    py_get (d.map (fun p => if p.1 = k then (k, v) else p)) k' = py_get d k' := by
  induction d with
  | nil => rfl
  | cons p d ih =>
      obtain ⟨k₀, v₀⟩ := p
      by_cases hk : k₀ = k
      · subst hk
        cases h : py_get d k' <;>
          simp [py_get_cons, ih, h, hne, Ne.symm hne]
      · cases h : py_get d k' <;> simp [py_get_cons, ih, h, hk]

/-- Assigning `k` makes `k` read back the assigned value. -/
theorem py_get_py_set_self (d : List (String × Json)) (k : String) (v : Json) :
    py_get (py_set d k v) k = some v := by
  unfold py_set
  split
  next h => rw [py_get_replace, if_pos h]
  next h =>
      rw [py_get_append]
      simp [py_get_cons, py_get]

/-- Assigning `k` leaves every other key unchanged. -/
theorem py_get_py_set_other (d : List (String × Json)) (k k' : String)
    (v : Json) (hne : k' ≠ k) : py_get (py_set d k v) k' = py_get d k' := by
  unfold py_set
  split
  · rw [py_get_replace_other _ _ _ _ hne]
  · rw [py_get_append]
    cases h : py_get d k' <;> simp [py_get_cons, py_get, h, Ne.symm hne]

/-- `dict.update` semantics under lookup: a key bound in the update wins,
any other key keeps its old value. -/
theorem py_get_py_dict_update (d m : List (String × Json)) (k : String) :
    py_get (py_dict_update d m) k =
      match py_get m k with
      | some w => some w
      | none => py_get d k := by
  induction m generalizing d with
  | nil => rfl
  | cons p rest ih =>
      obtain ⟨k₁, v₁⟩ := p
      rw [py_dict_update, ih, py_get_cons]
      cases h : py_get rest k with
      | some w => rfl
      | none =>
          by_cases hk : k₁ = k
          · subst hk
            rw [py_get_py_set_self]
            simp
          · rw [py_get_py_set_other d k₁ k v₁ (Ne.symm hk)]
            simp [hk]

/-- The contents of the ranked payload, in backend order. -/
theorem rank_results_content (i : Nat) (rs : List LCDoc) :
    (rank_results i rs).map (fun r => r.content) =
      rs.map (fun d => d.page_content) := by
  induction rs generalizing i with
  | nil => rfl
  | cons d rest ih => simp [rank_results, ih]

/-- The ranks of the ranked payload: consecutive from `i`. -/
theorem rank_results_rank (i : Nat) (rs : List LCDoc) :
    (rank_results i rs).map (fun r => r.rank) = List.range' i rs.length := by
  induction rs generalizing i with
  | nil => rfl
  | cons d rest ih => simp [rank_results, ih, List.range'_succ]

/-- A run whose phase is not `running` is frozen by `run_step`. -/
theorem run_step_frozen (m : Nat) (f : Nat → String) (s : RunState)
    (h : s.phase ≠ .running) : run_step m f s = s := by
  rcases s with ⟨st, d, ph⟩
  cases ph
  · exact absurd rfl h
  · rfl
  · rfl

/-- One running step: the counter advances by exactly one, and the run can
still be running afterwards only if the counter stayed within the bound. -/
theorem run_step_running (m : Nat) (f : Nat → String) (s : RunState)
    (hr : s.phase = .running) :
    (run_step m f s).steps = s.steps + 1 ∧
      ((run_step m f s).phase = .running → s.steps + 1 ≤ m) := by
  rcases s with ⟨st, d, ph⟩
  cases ph
  case running =>
    simp only [run_step]
    split
    next hlt => exact ⟨rfl, fun h => nomatch h⟩
    next hge =>
      split
      · exact ⟨rfl, fun h => nomatch h⟩
      · split
        · exact ⟨rfl, fun _ => Nat.not_lt.mp hge⟩
        · exact ⟨rfl, fun h => nomatch h⟩
        · exact ⟨rfl, fun h => nomatch h⟩
  case terminated => exact absurd hr (by simp)
  case errored => exact absurd hr (by simp)

/-- While a run is still running after `n` iterations, the counter reads
exactly `n` and the bound has not been passed. -/
theorem run_iterate_invariant (m : Nat) (f : Nat → String) (n : Nat)
    (h : ((run_step m f)^[n] run_init).phase = .running) :
    ((run_step m f)^[n] run_init).steps = n ∧ n ≤ m := by
  induction n with
  | zero => exact ⟨rfl, Nat.zero_le m⟩
  | succ n ih =>
      rw [Function.iterate_succ_apply'] at h ⊢
      by_cases hr : ((run_step m f)^[n] run_init).phase = .running
      · obtain ⟨h1, _⟩ := ih hr
        obtain ⟨hsteps, hbound⟩ := run_step_running m f _ hr
        rw [h1] at hsteps hbound
        exact ⟨hsteps, hbound h⟩
      · rw [run_step_frozen m f _ hr] at h
        exact absurd h hr

/-! ### Decoder fidelity samples

Concrete behaviours of the `json.loads` model at the boundary the routing
claims depend on: the default-admitted constants decode (to non-objects,
on which `decide_next` then raises), `\uXXXX` escapes decode inside
strings, and raw control characters inside strings are rejected. -/

/-- `json.loads("NaN")` succeeds with a non-object value. -/
theorem json_loads_accepts_nan : json_loads "NaN" = some (Json.num "NaN") := rfl

/-- A `NaN` routing message raises `AttributeError` rather than ending. -/
theorem decide_next_raises_on_nan :
    decide_next [Msg.ai (some "NaN")] = .error PyErr.attributeError := rfl

/-- A `\uXXXX` escape decodes to its character inside a JSON string. -/
theorem json_loads_decodes_unicode_escape :
    json_loads "\"\\u0041\"" = some (Json.str "A") := rfl

/-- An object whose `next_agent` uses `\uXXXX` escapes routes normally. -/
theorem decide_next_routes_unicode_escape :
    decide_next
        [Msg.ai (some "\x7b\"next_agent\": \"\\u0053ummarizer\"\x7d")] =
      .ok ("summarizer", some (Json.str "No reason provided.")) := rfl

/-- A raw control character inside a JSON string is rejected (strict
decoder), so such content routes to the terminal sentinel. -/
theorem decide_next_ends_on_raw_control_char :
    decide_next [Msg.ai (some "\"a\nb\"")] = .ok ("end", none) := rfl

/-! ### The claims -/

/-- C1: Every orchestration run terminates: the step counter is
monotonically non-decreasing per run; while still running after `n`
iterations the counter reads `n` and has not passed the maximum, so after
`max_steps + 1` iterations the run is no longer running, whatever the
supervisor's routing decisions; and a supervisor that always returns
`next_agent = summarizer_agent` with max steps 5 terminates after exactly
5 dispatches (the counter reads 6, the terminating check). -/
theorem orchestration_terminates :
    (∀ (m : Nat) (f : Nat → String) (s : RunState),
        s.steps ≤ (run_step m f s).steps) ∧
    (∀ (m : Nat) (f : Nat → String) (n : Nat),
        ((run_step m f)^[n] run_init).phase = .running → n ≤ m) ∧
    (∀ (m : Nat) (f : Nat → String),
        ((run_step m f)^[m + 1] run_init).phase ≠ .running) ∧
    (run_step 5 sup_always_summarizer)^[6] run_init =
      ⟨6, 5, .terminated⟩ := by
  refine ⟨?_, ?_, ?_, ?_⟩
  · intro m f s
    rcases s with ⟨st, d, ph⟩
    cases ph
    case running =>
      simp only [run_step]
      split
      · exact Nat.le_succ st
      · split
        · exact Nat.le_succ st
        · split <;> exact Nat.le_succ st
    case terminated => exact Nat.le_refl st
    case errored => exact Nat.le_refl st
  · intro m f n h
    exact (run_iterate_invariant m f n h).2
  · intro m f h
    have := (run_iterate_invariant m f (m + 1) h).2
    exact absurd this (by omega)
  · rfl

/-- C1 witness: after 3 iterations of the bounded-at-5 summarizer loop the
run is still running, and the bound 3 ≤ 5 follows from the theorem. -/
theorem orchestration_terminates_witness :
    ((run_step 5 sup_always_summarizer)^[3] run_init).phase = .running ∧
      (3 : Nat) ≤ 5 :=
  ⟨rfl, orchestration_terminates.2.1 5 sup_always_summarizer 3 rfl⟩

/-- C2 counterexample: the content `[1, 2]` decodes as JSON but is not an
object; `decision.get` then raises `AttributeError`, which `decide_next`
does not catch — the routing decision does not degrade to `"end"`. -/
theorem decide_next_raises_on_json_array :
    decide_next [Msg.ai (some "[1, 2]")] = .error PyErr.attributeError := rfl

/-- C2 (amended): content of the supervisor's latest AI message that fails
strict JSON decoding degrades to the terminal sentinel `"end"` without
raising; content that decodes to a non-object raises `AttributeError`
instead, because only `json.JSONDecodeError` is caught. -/
theorem decide_next_end_on_decode_failure (messages : List Msg)
    (c : Option String) (hlast : messages.getLast? = some (Msg.ai c))
    (hparse : json_loads (py_strip (c.getD "")) = none) :
    decide_next messages = .ok ("end", none) := by
  unfold decide_next
  rw [hlast]
  simp only [hparse]

/-- C2 witness: plain text from the supervisor is not JSON and yields the
terminal decision. -/
theorem decide_next_end_on_decode_failure_witness :
    decide_next [Msg.ai (some "sure, go with the summarizer")] =
      .ok ("end", none) :=
  decide_next_end_on_decode_failure _ (some "sure, go with the summarizer")
    rfl rfl

/-- C3 counterexample: a decision naming `qa_agent` — neither a registry
key nor `"end"` — is returned verbatim by `decide_next` (no coercion to
terminal), and the supervisor's conditional edge then has no branch for
it: the step fails instead of terminating. -/
theorem unknown_route_counterexample :
    decide_next
        [Msg.ai (some "\x7b\"next_agent\": \"qa_agent\", \"reason\": \"r\"\x7d")] =
      .ok ("qa_agent", some (Json.str "r")) ∧
    "qa_agent" ∉ main_registry_keys ∧
    "qa_agent" ≠ "end" ∧
    next_phase main_registry_keys (.ok ("qa_agent", some (Json.str "r")))
        (.at_node "supervisor_agent") = .failed ∧
    GPhase.failed ≠ GPhase.done :=
  ⟨rfl, by decide, by decide, rfl, by decide⟩

/-- C3 (amended): `decide_next` performs no registry validation — it
returns the trimmed, lower-cased `next_agent` value verbatim — and any
routing value with no entry in the conditional path map (including the
registry key `store_analysis_agent`, which the map omits) makes the
supervisor's routing step fail rather than transition to the terminal
state. -/
theorem unknown_route_errors (keys : List String) (r : String)
    (d : Option Json) (hr : lookup_path r = none) :
    next_phase keys (.ok (r, d)) (.at_node "supervisor_agent") = .failed := by
  simp [next_phase, hr]

/-- C3 witness: routing to `store_analysis_agent` — a key of the `main.py`
registry — fails at the supervisor's conditional edge. -/
theorem unknown_route_errors_witness :
    next_phase main_registry_keys (.ok ("store_analysis_agent", none))
      (.at_node "supervisor_agent") = .failed :=
  unknown_route_errors main_registry_keys "store_analysis_agent" none rfl

/-- C4: every plain edge out of a dispatched (non-supervisor) agent node
leads back to the supervisor, and for every registry key other than the
supervisor the next transition from that node reaches the supervisor node,
whatever the routing decision was. -/
theorem workers_return_to_supervisor :
    (∀ (keys : List String) (e : String × String),
        e ∈ worker_edges keys → e.2 = "supervisor_agent") ∧
    (∀ (keys : List String) (dec : Except PyErr (String × Option Json))
        (a : String), a ∈ keys → a ≠ "supervisor_agent" →
        next_phase keys dec (.at_node a) = .at_node "supervisor_agent") := by
  refine ⟨worker_edges_snd, ?_⟩
  intro keys dec a ha hne
  simp only [next_phase, if_neg hne]
  have hmem : (a, "supervisor_agent") ∈ worker_edges keys := by
    simp only [worker_edges, List.mem_map, List.mem_filter]
    exact ⟨a, ⟨ha, by simp [hne]⟩, rfl⟩
  cases hf : (worker_edges keys).find? (fun e => e.1 = a) with
  | none =>
      have := List.find?_eq_none.mp hf _ hmem
      simp at this
  | some e =>
      have h2 := worker_edges_snd keys e (List.mem_of_find?_eq_some hf)
      simp [h2]

/-- C4 witness: from the `store_analysis_agent` node (a non-supervisor
registry key) control returns to the supervisor. -/
theorem workers_return_to_supervisor_witness :
    next_phase main_registry_keys (.ok ("end", none))
      (.at_node "store_analysis_agent") = .at_node "supervisor_agent" :=
  workers_return_to_supervisor.2 main_registry_keys (.ok ("end", none))
    "store_analysis_agent" (by decide) (by decide)

/-- C5: when the supervisor's latest AI message decodes as a JSON object
with a string `next_agent` field, the routing decision is the lower-cased,
whitespace-trimmed `next_agent` when the trimmed value is non-empty and
`"end"` when it is empty or the field is absent, and the `reason` value
read defaults to the fixed placeholder when absent. -/
theorem routing_decision_spec (messages : List Msg) (c : String)
    (fields : List (String × Json))
    (hlast : messages.getLast? = some (Msg.ai (some c)))
    (hparse : json_loads (py_strip c) = some (Json.obj fields)) :
    (∀ na, py_get fields "next_agent" = some (Json.str na) →
        decide_next messages =
          .ok (if py_strip na = "" then "end" else py_lower (py_strip na),
            some ((py_get fields "reason").getD
              (Json.str "No reason provided.")))) ∧
    (py_get fields "next_agent" = none →
        decide_next messages =
          .ok ("end",
            some ((py_get fields "reason").getD
              (Json.str "No reason provided.")))) := by
  constructor
  · intro na hna
    simp only [decide_next, hlast, Option.getD_some, hparse, hna]
  · intro hna
    simp only [decide_next, hlast, Option.getD_some, hparse, hna,
      Option.getD_none]
    rfl

/-- C5 witness: `" Summarizer_Agent "` is trimmed and lower-cased, and the
absent reason defaults to the placeholder. -/
theorem routing_decision_spec_witness :
    decide_next [Msg.ai (some "\x7b\"next_agent\": \" Summarizer_Agent \"\x7d")] =
      .ok ("summarizer_agent", some (Json.str "No reason provided.")) :=
  (routing_decision_spec
      [Msg.ai (some "\x7b\"next_agent\": \" Summarizer_Agent \"\x7d")]
      "\x7b\"next_agent\": \" Summarizer_Agent \"\x7d"
      [("next_agent", Json.str " Summarizer_Agent ")] rfl rfl).1
    " Summarizer_Agent " rfl

/-- C6 counterexample: a backend failure that is not a `TypeError`
propagates out of `retrieve` instead of degrading to the empty result
list. -/
theorem retrieve_propagates_backend_error :
    _retrieve_impl (fun _ _ _ => .error (.otherError "backend unavailable"))
        "q" 5 none =
      .error (.otherError "backend unavailable") ∧
    _retrieve_impl (fun _ _ _ => .error (.otherError "backend unavailable"))
        "q" 5 none ≠ .ok ⟨"q", []⟩ := by
  refine ⟨rfl, fun h => ?_⟩
  exact Except.noConfusion h

/-- C6 (amended): `retrieve` catches only `TypeError` from the filtered
search call (falling back to an unfiltered search); any other backend
error, and any error of the fallback call itself, propagates to the
caller rather than degrading to an empty result list. -/
theorem retrieve_catches_only_type_error :
    (∀ (b : Backend) (q : String) (k : Nat)
        (f : Option (List (String × Json))) (msg : String),
        b q k f = .error (.otherError msg) →
        _retrieve_impl b q k f = .error (.otherError msg)) ∧
    (∀ (b : Backend) (q : String) (k : Nat)
        (f : Option (List (String × Json))) (e : BErr),
        b q k f = .error .typeError → b q k none = .error e →
        _retrieve_impl b q k f = .error e) := by
  constructor
  · intro b q k f msg h
    simp only [_retrieve_impl, h]
  · intro b q k f e h₁ h₂
    simp only [_retrieve_impl, h₁, h₂]

/-- C6 amended-claim witness: a non-`TypeError` failure propagates. -/
theorem retrieve_catches_only_type_error_witness :
    _retrieve_impl (fun _ _ _ => .error (.otherError "chroma down"))
        "query" 3 none =
      .error (.otherError "chroma down") :=
  retrieve_catches_only_type_error.1
    (fun _ _ _ => .error (.otherError "chroma down")) "query" 3 none
    "chroma down" rfl

/-- C7: when the backend call succeeds, `retrieve` returns the query
together with the backend's matches in order, ranks numbered consecutively
from 1; with an empty result set it returns the query and the empty list. -/
theorem retrieve_payload_spec (b : Backend) (q : String) (k : Nat)
    (f : Option (List (String × Json))) (rs : List LCDoc)
    (h : b q k f = .ok rs) :
    _retrieve_impl b q k f = .ok ⟨q, rank_results 1 rs⟩ ∧
    (rank_results 1 rs).map (fun r => r.content) =
      rs.map (fun d => d.page_content) ∧
    (rank_results 1 rs).map (fun r => r.rank) = List.range' 1 rs.length ∧
    (rs = [] → _retrieve_impl b q k f = .ok ⟨q, []⟩) := by
  have himpl : _retrieve_impl b q k f = .ok ⟨q, rank_results 1 rs⟩ := by
    simp only [_retrieve_impl, h]
  refine ⟨himpl, rank_results_content 1 rs, rank_results_rank 1 rs, ?_⟩
  intro hrs
  subst hrs
  exact himpl

/-- C7 witness: with an empty store, `retrieve` returns the query and an
empty result list. -/
theorem retrieve_payload_spec_witness :
    _retrieve_impl (fun _ _ _ => .ok []) "any query" 5 none =
      .ok ⟨"any query", []⟩ :=
  (retrieve_payload_spec (fun _ _ _ => .ok []) "any query" 5 none [] rfl).2.2.2
    rfl

/-- C8: when the latest message of the shared state is not an AI message,
`decide_next` returns the terminal sentinel without parsing anything. -/
theorem non_ai_message_ends (messages : List Msg) (m : Msg)
    (hlast : messages.getLast? = some m) (hai : is_ai m = false) :
    decide_next messages = .ok ("end", none) := by
  unfold decide_next
  rw [hlast]
  cases m with
  | ai c => simp [is_ai] at hai
  | human c => rfl
  | tool c => rfl

/-- C8 witness: the human seed message routes to the terminal sentinel. -/
theorem non_ai_message_ends_witness :
    decide_next [Msg.human (some "New file uploaded: uploads/notes.pdf")] =
      .ok ("end", none) :=
  non_ai_message_ends _ (Msg.human (some "New file uploaded: uploads/notes.pdf"))
    rfl rfl

/-- C9: a caller-supplied metadata entry for any of the automatic keys
overrides the automatically generated value in the stored record, because
the user metadata is merged last with `meta.update(metadata)`. -/
theorem user_metadata_overrides (agent_name result_type text_repr : String)
    (doc_id : Option String) (timestamp : String)
    (m : List (String × Json)) (key : String) (v : Json)
    (_hkey : key ∈ ["agent_name", "type", "doc_id", "timestamp"])
    (hv : py_get m key = some v) :
    py_get ((_store_impl agent_name result_type text_repr doc_id timestamp
        (some m)).1.metadata) key = some v := by
  cases m with
  | nil => simp [py_get] at hv
  | cons p rest =>
      show py_get (py_dict_update _ (p :: rest)) key = some v
      rw [py_get_py_dict_update, hv]

/-- C9 witness: user metadata `agent_name = "impostor"` overrides the
`agent_name` argument `"summarizer_agent"` in the stored record. -/
theorem user_metadata_overrides_witness :
    py_get ((_store_impl "summarizer_agent" "summary" "text" none
        "2024-01-01T00:00:00Z"
        (some [("agent_name", Json.str "impostor")])).1.metadata)
      "agent_name" = some (Json.str "impostor") ∧
    some (Json.str "impostor") ≠ some (Json.str "summarizer_agent") :=
  ⟨user_metadata_overrides "summarizer_agent" "summary" "text" none
      "2024-01-01T00:00:00Z" [("agent_name", Json.str "impostor")]
      "agent_name" (Json.str "impostor") (by simp) rfl,
    by simp⟩

/-- C10: the transcript tool never raises: a URL without a `v` query
parameter, a missing (or empty) API key, and a transcript-fetch failure
each return a string beginning with `"Error fetching transcript: "`, and
every call either returns such an error string or the joined transcript. -/
theorem transcript_tool_never_raises (api_key : Option String)
    (fetch : String → Except String (List String)) (url : String) :
    (extract_video_id url = none →
        get_youtube_transcript api_key fetch url =
          "Error fetching transcript: " ++ bad_url_msg) ∧
    (∀ vid, extract_video_id url = some vid →
        api_key = none ∨ api_key = some "" →
        get_youtube_transcript api_key fetch url =
          "Error fetching transcript: " ++ no_key_msg) ∧
    (∀ vid key e, extract_video_id url = some vid → api_key = some key →
        key ≠ "" → fetch vid = .error e →
        get_youtube_transcript api_key fetch url =
          "Error fetching transcript: " ++ e) ∧
    ((∃ msg, get_youtube_transcript api_key fetch url =
        "Error fetching transcript: " ++ msg) ∨
      (∃ vid entries, extract_video_id url = some vid ∧
        fetch vid = .ok entries ∧
        get_youtube_transcript api_key fetch url =
          String.intercalate " " entries)) := by
  refine ⟨?_, ?_, ?_, ?_⟩
  · intro h
    simp only [get_youtube_transcript, h]
  · intro vid hvid hk
    rcases hk with hk | hk <;> subst hk <;>
      simp [get_youtube_transcript, hvid]
  · intro vid key e hvid hkey hne hf
    subst hkey
    simp only [get_youtube_transcript, hvid, hf, if_neg hne]
  · cases hvid : extract_video_id url with
    | none => exact .inl ⟨bad_url_msg, by simp [get_youtube_transcript, hvid]⟩
    | some vid =>
        cases api_key with
        | none => exact .inl ⟨no_key_msg, by simp [get_youtube_transcript, hvid]⟩
        | some key =>
            by_cases hkey : key = ""
            · subst hkey
              exact .inl ⟨no_key_msg, by simp [get_youtube_transcript, hvid]⟩
            · cases hf : fetch vid with
              | error e =>
                  exact .inl ⟨e,
                    by simp [get_youtube_transcript, hvid, hf, if_neg hkey]⟩
              | ok entries =>
                  exact .inr ⟨vid, entries, rfl, hf,
                    by simp [get_youtube_transcript, hvid, hf, if_neg hkey]⟩

/-- C10 witness: a `youtu.be` short URL has no `v` query parameter, so the
tool returns the error string rather than raising. -/
theorem transcript_tool_never_raises_witness :
    get_youtube_transcript (some "api-key") (fun _ => .ok ["hello"])
        "https://youtu.be/abc123" =
      "Error fetching transcript: " ++ bad_url_msg :=
  (transcript_tool_never_raises (some "api-key") (fun _ => .ok ["hello"])
      "https://youtu.be/abc123").1 rfl
